import Mathlib

/-!
Shallow embedding of the Connected Labs gateway
(`src/connected-labs-platform/gateway/server.js`): command validation and
queue, alert store, and the structured proxy routes.  JavaScript objects are
modelled as association lists, JavaScript strings as `String` (or `List Char`
where splitting must be reasoned about), and the event-loop handlers as pure
functions from their inputs (request parameters, current store, the upstream
reply, the current ISO clock string) to a response plus the new store.
-/

namespace Gateway

/-- A JavaScript value as it appears in a command's `parameters` object:
either a JSON number (restricted to integers, which is all the routes and
claims exercise) or a string. -/
inductive JValue where
  | num (n : Int)
  | str (s : String)
deriving DecidableEq, Repr

/-- The numeric value of a run of decimal digits. -/
def digitsToNat (l : List Char) : Nat :=
  l.foldl (fun n c => 10 * n + (c.toNat - 48)) 0

/-- Parse an optionally minus-signed nonempty run of decimal digits;
`none` stands for `NaN`.  This is the number parsing the embedding uses for
JavaScript `ToNumber` and `parseInt` on the canonical decimal numerals the
code paths under study feed them. -/
def decInt? : List Char → Option Int
  | '-' :: rest =>
      if rest ≠ [] ∧ rest.all (·.isDigit) then
        some (-(digitsToNat rest : Int))
      else none
  | l =>
      if l ≠ [] ∧ l.all (·.isDigit) then some ((digitsToNat l : Int))
      else none

/-- Model of JavaScript `ToNumber` as used by the `<` / `>` comparisons in
`validateCommandParameters` (server.js:1096): a number converts to itself, a
string converts via decimal parsing; a non-numeric string yields `none`,
standing for `NaN`. -/
def jsToNumber : JValue → Option Int
  | .num n => some n
  | .str s => decInt? s.toList

/-- JavaScript `value < m` where `m` is a number: `NaN` compares false. -/
def jsLt (v : JValue) (m : Int) : Bool :=
  match jsToNumber v with
  | some n => decide (n < m)
  | none => false

/-- JavaScript `value > m` where `m` is a number: `NaN` compares false. -/
def jsGt (v : JValue) (m : Int) : Bool :=
  match jsToNumber v with
  | some n => decide (n > m)
  | none => false

/-- An inclusive numeric range from the validation table (server.js:1064). -/
structure ParamRange where
  min : Int
  max : Int
deriving DecidableEq, Repr

/-- One entry of the validation table: required parameter names and numeric
ranges (server.js:1061-1078). -/
structure CommandRule where
  required : List String
  ranges : List (String × ParamRange)
deriving DecidableEq, Repr

/-- The fixed validation table of `validateCommandParameters`
(server.js:1061-1078).  Note: it contains no entry for `set_speed`. -/
def validationRules : List (String × CommandRule) :=
  [ ("set_temperature", { required := ["value"], ranges := [("value", { min := -80, max := 300 })] }),
    ("set_pressure", { required := ["value"], ranges := [("value", { min := 0, max := 1000 })] }),
    ("start", { required := [], ranges := [] }),
    ("stop", { required := [], ranges := [] }) ]

/-- Result of `validateCommandParameters`: `{valid: true}` or
`{valid: false, error}`. -/
inductive ValidationResult where
  | valid
  | invalid (error : String)
deriving DecidableEq, Repr

/-- `validateCommandParameters(command, parameters)` (server.js:1060-1103).
The two `for` loops return on the first offending parameter, modelled with
`List.find?`.  A parameter absent from the object is `undefined`, modelled
as a failed lookup. -/
def validateCommandParameters (command : String)
    (parameters : List (String × JValue)) : ValidationResult :=
  match validationRules.lookup command with
  | none => .invalid ("Unknown command: " ++ command)
  | some rules =>
    match rules.required.find? (fun p => (parameters.lookup p).isNone) with
    | some p => .invalid ("Missing required parameter: " ++ p)
    | none =>
      match rules.ranges.find? (fun pr =>
          match parameters.lookup pr.1 with
          | none => false
          | some v => jsLt v pr.2.min || jsGt v pr.2.max) with
      | some pr =>
          .invalid ("Parameter " ++ pr.1 ++ " out of range (" ++
            toString pr.2.min ++ "-" ++ toString pr.2.max ++ ")")
      | none => .valid

/-- A JSON value appearing in a response body sent with `res.json`.  `raw`
stands for a value passed through or nested verbatim (an upstream JSON body,
an embedded object or array), identified by a descriptive string. -/
inductive JVal where
  | str (s : String)
  | num (n : Int)
  | boolean (b : Bool)
  | raw (s : String)
deriving DecidableEq, Repr

/-- An HTTP response: status code plus the JSON body as an association list
in the field order of the object literal passed to `res.json`. -/
structure HttpResponse where
  status : Nat
  body : List (String × JVal)
deriving DecidableEq, Repr

/-- The field names present in a response body. -/
def HttpResponse.keys (r : HttpResponse) : List String :=
  r.body.map Prod.fst

/-- A stored control command record (server.js:1159-1168). -/
structure CommandRecord where
  id : String
  instrumentId : String
  command : String
  parameters : List (String × JValue)
  timestamp : String
  status : String
  result : Option (List (String × JVal))
  error : Option String
deriving DecidableEq, Repr

/-- The `controlCommands` map (server.js:1057), as an association list with
the most recent insertion in front. -/
abbrev CommandStore := List (String × CommandRecord)

/-- `POST /api/control/instruments/:id/command` (server.js:1142-1198).
`commandId` stands for the freshly generated opaque id and `now` for the
ISO timestamp taken at handling time.  On validation failure the handler
returns 400 and leaves the store untouched; on success it stores a
`pending` record and acknowledges with the id (the asynchronous execution
is modelled separately by `executeCommand`). -/
def postCommand (store : CommandStore) (id : String) (command : String)
    (parameters : List (String × JValue)) (commandId : String) (now : String) :
    HttpResponse × CommandStore :=
  match validateCommandParameters command parameters with
  | .invalid err =>
      ({ status := 400, body :=
          [("success", .boolean false), ("error", .str err),
                  ("timestamp", .str now)] }, store)
  | .valid =>
      let commandObj : CommandRecord :=
        { id := commandId, instrumentId := id, command := command,
          parameters := parameters, timestamp := now, status := "pending",
          result := none, error := none }
      ({ status := 200, body :=
          [("success", .boolean true), ("commandId", .str commandId),
                  ("message", .str "Command queued for execution"),
                  ("timestamp", .str now)] },
       (commandId, commandObj) :: store)

/-- `GET /api/control/commands/:commandId` (server.js:1201-1218). -/
def getCommand (store : CommandStore) (commandId : String) (now : String) :
    HttpResponse :=
  match store.lookup commandId with
  | none =>
      { status := 404, body :=
          [("success", .boolean false),
                 ("error", .str "Command not found"), ("timestamp", .str now)] }
  | some _ =>
      { status := 200, body :=
          [("success", .boolean true), ("command", .raw commandId),
                 ("timestamp", .str now)] }

/-- `executeCommandAsync` outcome resolution (server.js:1118-1133), with the
two random draws (`Math.random() < 0.1` and the 1-3 s delay) passed in
explicitly as `shouldFail` and `executionTime`. -/
def executeCommand (c : CommandRecord) (shouldFail : Bool)
    (executionTime : Nat) : CommandRecord :=
  if shouldFail then
    { c with status := "failed", error := some "Simulated execution failure" }
  else
    { c with status := "completed",
             result := some
               [("success", .boolean true),
                ("message", .str ("Command " ++ c.command ++ " completed successfully")),
                ("executionTime", .num (Int.ofNat executionTime))] }

/-- An alert record as received by `POST /api/alerts`.  Each field of the
JSON body is an `Option String`; `none` models an absent (`undefined`)
field.  (Only the fields the handler inspects are modelled; the rest ride
along unexamined.) -/
structure Alert where
  id : Option String
  instrument_id : Option String
  severity : Option String
  description : Option String
  timestamp : Option String
deriving DecidableEq, Repr

/-- JavaScript truthiness of an optional string field: `undefined` and the
empty string are falsy (`!alert.id` in server.js:1248). -/
def truthy : Option String → Bool
  | none => false
  | some s => !s.isEmpty

/-- `MAX_ALERTS` (server.js:1240). -/
def MAX_ALERTS : Nat := 500

/-- The buffer update of `POST /api/alerts` (server.js:1261-1264):
`alerts.unshift(alert); if (alerts.length > MAX_ALERTS) alerts.pop();`.
`unshift` prepends, `pop` removes the last element. -/
def pushAlert (alert : Alert) (alerts : List Alert) : List Alert :=
  let alerts := alert :: alerts
  if alerts.length > MAX_ALERTS then alerts.dropLast else alerts

/-- `POST /api/alerts` (server.js:1243-1287): reject with 400 when `id`,
`instrument_id` or `severity` is falsy, storing nothing; otherwise default
`timestamp` to the ingestion instant `now` when falsy, push into the buffer
and acknowledge. -/
def postAlert (alerts : List Alert) (alert : Alert) (now : String) :
    HttpResponse × List Alert :=
  if !truthy alert.id || !truthy alert.instrument_id || !truthy alert.severity then
    ({ status := 400, body :=
          [("error", .str "Invalid alert format"),
                ("required", .raw "[id, instrument_id, severity, description]")] },
     alerts)
  else
    let alert := if truthy alert.timestamp then alert
                 else { alert with timestamp := some now }
    ({ status := 200, body :=
          [("success", .boolean true),
                ("message", .str "Alert received and broadcast"),
                ("alert_id", .str (alert.id.getD "")),
                ("broadcast_to", .str "all_clients")] },
     pushAlert alert alerts)

/-- Ingestion of a sequence of alerts, oldest first, starting from a given
buffer (repeated `POST /api/alerts` buffer updates). -/
def ingestAll (as : List Alert) (alerts : List Alert) : List Alert :=
  as.foldl (fun buf a => pushAlert a buf) alerts

/-- `instrumentId.split('-')[0]`: everything before the first dash.  Path
parameters are modelled as `List Char` so that splitting can be reasoned
about directly. -/
def splitDashHead : List Char → List Char
  | [] => []
  | c :: cs => if c = '-' then [] else c :: splitDashHead cs

/-- `instrumentId.includes('-')`. -/
def containsDash (l : List Char) : Bool := l.any (· = '-')

/-- The IP extraction every structured route performs (server.js:262-267):
`instrumentId.split('-')[0]` when the id contains a dash, otherwise the id
itself. -/
def extractInstrumentIp (instrumentId : List Char) : List Char :=
  if containsDash instrumentId then splitDashHead instrumentId
  else instrumentId

/-- One run of one to three ASCII digits, as matched by `\d{1,3}` in the
gateway IP regex. -/
def digitRun (p : List Char) : Bool :=
  decide (1 ≤ p.length) && decide (p.length ≤ 3) && p.all (·.isDigit)

/-- `ipRegex.test(instrumentIp)` for the regex used by every structured
route (server.js:270): four dot-separated runs of one to three digits.
Splitting on a dot yields exactly the groups the anchored regex demands. -/
def ipRegexTest (l : List Char) : Bool :=
  match l.splitOn '.' with
  | [a, b, c, d] => digitRun a && digitRun b && digitRun c && digitRun d
  | _ => false

/-- A dotted-quad octet: one to three decimal digits with value at most
255.  Part of the claim-side notion of a valid IPv4 address. -/
def isOctet (p : List Char) : Bool :=
  digitRun p && decide (digitsToNat p ≤ 255)

/-- Claim-side notion of a valid IPv4 dotted-quad string: only digits and
dots, splitting on dots yields exactly four octets, each an integer in
0..255 of at most three digits.  (This is the standard dotted-quad syntax
the spec appeals to; it is stricter than the gateway regex, which accepts
runs such as `999`.) -/
def ipv4Valid (l : List Char) : Bool :=
  l.all (fun c => c.isDigit || c = '.') &&
  match l.splitOn '.' with
  | [a, b, c, d] => isOctet a && isOctet b && isOctet c && isOctet d
  | _ => false

/-- The upstream side of an `axios` call: either an HTTP reply with a status
and a body, or a network-level failure with an error message (no response at
all). -/
inductive UpstreamResult where
  | reply (status : Nat) (data : String)
  | netFailure (message : String)
deriving DecidableEq, Repr

/-- `axios` with `validateStatus: status => status < 500` (server.js:298-301):
a reply below 500 resolves normally; a 5xx reply or a network failure
throws, landing in the route's `catch` block. -/
def axiosSub500 : UpstreamResult → Except String (Nat × String)
  | .reply status data =>
      if status < 500 then .ok (status, data)
      else .error ("Request failed with status code " ++ toString status)
  | .netFailure message => .error message

/-- `parseInt(value)` for the canonical decimal numerals the routes are fed:
`none` stands for `NaN`. -/
def parseIntJS (l : List Char) : Option Int := decInt? l

/-- `s.substring(0, n)`: the first `n` characters of a string. -/
def substrPrefix (s : String) (n : Nat) : String := String.mk (s.toList.take n)

/-- What a structured route did: whether an outbound request to the
instrument was issued, and the HTTP response returned to the caller. -/
structure RouteResult where
  requestMade : Bool
  response : HttpResponse
deriving DecidableEq, Repr

/-- `GET /api/proxy/setspeed/:instrumentId/:value` (server.js:256-329).
`now` is the ISO timestamp string of the handling instant.  (The outbound
URL construction is elided; `requestMade` records that the `axios` call was
reached.) -/
def setspeedRoute (instrumentId value : List Char) (upstream : UpstreamResult)
    (now : String) : RouteResult :=
  let instrumentIp := extractInstrumentIp instrumentId
  if !ipRegexTest instrumentIp then
    { requestMade := false,
      response := { status := 400, body :=
          [("success", .boolean false),
                 ("error", .str "Invalid instrument ID or IP address format"),
                 ("instrumentId", .str (String.mk instrumentId)),
                 ("timestamp", .str now)] } }
  else
    match parseIntJS value with
    | none =>
      { requestMade := false,
        response := { status := 400, body :=
          [("success", .boolean false),
                   ("error", .str "Speed value must be between 500 and 100,000"),
                   ("timestamp", .str now)] } }
    | some speedValue =>
      if speedValue < 500 || speedValue > 100000 then
        { requestMade := false,
          response := { status := 400, body :=
          [("success", .boolean false),
                     ("error", .str "Speed value must be between 500 and 100,000"),
                     ("timestamp", .str now)] } }
      else
        { requestMade := true,
          response :=
            match axiosSub500 upstream with
            | .ok (status, data) =>
              let isSuccess := decide (200 ≤ status) && decide (status < 300)
              { status := 200, body :=
          [("success", .boolean isSuccess),
                         ("instrumentIp", .str (String.mk instrumentIp)),
                         ("speed", .num speedValue),
                         ("statusCode", .num (Int.ofNat status)),
                         ("message", .str (if isSuccess then
                             "Speed successfully set to " ++ toString speedValue ++
                               " on " ++ String.mk instrumentIp
                           else "Request completed with warnings")),
                         ("responsePreview", .str (substrPrefix data 500)),
                         ("timestamp", .str now)] }
            | .error msg =>
              { status := 500, body :=
          [("success", .boolean false),
                         ("error", .str "Failed to set speed"),
                         ("message", .str msg),
                         ("timestamp", .str now)] } }

/-- `GET /api/proxy/setruntime/:instrumentId/:value` (server.js:332-401). -/
def setruntimeRoute (instrumentId value : List Char) (upstream : UpstreamResult)
    (now : String) : RouteResult :=
  let instrumentIp := extractInstrumentIp instrumentId
  if !ipRegexTest instrumentIp then
    { requestMade := false,
      response := { status := 400, body :=
          [("success", .boolean false),
                 ("error", .str "Invalid instrument ID or IP address format"),
                 ("instrumentId", .str (String.mk instrumentId)),
                 ("timestamp", .str now)] } }
  else
    match parseIntJS value with
    | none =>
      { requestMade := false,
        response := { status := 400, body :=
          [("success", .boolean false),
                   ("error", .str "Runtime value must be between 1 and 1000"),
                   ("timestamp", .str now)] } }
    | some runtimeValue =>
      if runtimeValue < 1 || runtimeValue > 1000 then
        { requestMade := false,
          response := { status := 400, body :=
          [("success", .boolean false),
                     ("error", .str "Runtime value must be between 1 and 1000"),
                     ("timestamp", .str now)] } }
      else
        { requestMade := true,
          response :=
            match axiosSub500 upstream with
            | .ok (status, data) =>
              let isSuccess := decide (200 ≤ status) && decide (status < 300)
              { status := 200, body :=
          [("success", .boolean isSuccess),
                         ("instrumentIp", .str (String.mk instrumentIp)),
                         ("runtime", .num runtimeValue),
                         ("statusCode", .num (Int.ofNat status)),
                         ("message", .str (if isSuccess then
                             "Runtime successfully set to " ++ toString runtimeValue ++
                               " on " ++ String.mk instrumentIp
                           else "Request completed with warnings")),
                         ("responsePreview", .str (substrPrefix data 500)),
                         ("timestamp", .str now)] }
            | .error msg =>
              { status := 500, body :=
          [("success", .boolean false),
                         ("error", .str "Failed to set runtime"),
                         ("message", .str msg),
                         ("timestamp", .str now)] } }

/-- `GET /api/proxy/settemperature/:instrumentId/:value` (server.js:404-473). -/
def settemperatureRoute (instrumentId value : List Char)
    (upstream : UpstreamResult) (now : String) : RouteResult :=
  let instrumentIp := extractInstrumentIp instrumentId
  if !ipRegexTest instrumentIp then
    { requestMade := false,
      response := { status := 400, body :=
          [("success", .boolean false),
                 ("error", .str "Invalid instrument ID or IP address format"),
                 ("instrumentId", .str (String.mk instrumentId)),
                 ("timestamp", .str now)] } }
  else
    match parseIntJS value with
    | none =>
      { requestMade := false,
        response := { status := 400, body :=
          [("success", .boolean false),
                   ("error", .str "Temperature value must be between -80 and 300"),
                   ("timestamp", .str now)] } }
    | some temperatureValue =>
      if temperatureValue < -80 || temperatureValue > 300 then
        { requestMade := false,
          response := { status := 400, body :=
          [("success", .boolean false),
                     ("error", .str "Temperature value must be between -80 and 300"),
                     ("timestamp", .str now)] } }
      else
        { requestMade := true,
          response :=
            match axiosSub500 upstream with
            | .ok (status, data) =>
              let isSuccess := decide (200 ≤ status) && decide (status < 300)
              { status := 200, body :=
          [("success", .boolean isSuccess),
                         ("instrumentIp", .str (String.mk instrumentIp)),
                         ("temperature", .num temperatureValue),
                         ("statusCode", .num (Int.ofNat status)),
                         ("message", .str (if isSuccess then
                             "Temperature successfully set to " ++
                               toString temperatureValue ++ "°C on " ++
                               String.mk instrumentIp
                           else "Request completed with warnings")),
                         ("responsePreview", .str (substrPrefix data 500)),
                         ("timestamp", .str now)] }
            | .error msg =>
              { status := 500, body :=
          [("success", .boolean false),
                         ("error", .str "Failed to set temperature"),
                         ("message", .str msg),
                         ("timestamp", .str now)] } }

/-- `GET /api/proxy/startoperation/:instrumentId` (server.js:476-534). -/
def startoperationRoute (instrumentId : List Char) (upstream : UpstreamResult)
    (now : String) : RouteResult :=
  let instrumentIp := extractInstrumentIp instrumentId
  if !ipRegexTest instrumentIp then
    { requestMade := false,
      response := { status := 400, body :=
          [("success", .boolean false),
                 ("error", .str "Invalid instrument ID or IP address format"),
                 ("instrumentId", .str (String.mk instrumentId)),
                 ("timestamp", .str now)] } }
  else
    { requestMade := true,
      response :=
        match axiosSub500 upstream with
        | .ok (status, data) =>
          let isSuccess := decide (200 ≤ status) && decide (status < 300)
          { status := 200, body :=
          [("success", .boolean isSuccess),
                     ("instrumentIp", .str (String.mk instrumentIp)),
                     ("statusCode", .num (Int.ofNat status)),
                     ("message", .str (if isSuccess then
                         "Operation started successfully on " ++ String.mk instrumentIp
                       else "Request completed with warnings")),
                     ("responsePreview", .str (substrPrefix data 500)),
                     ("timestamp", .str now)] }
        | .error msg =>
          { status := 500, body :=
          [("success", .boolean false),
                     ("error", .str "Failed to start operation"),
                     ("message", .str msg),
                     ("timestamp", .str now)] } }

/-- `GET /api/proxy/stopoperation/:instrumentId` (server.js:537-595). -/
def stopoperationRoute (instrumentId : List Char) (upstream : UpstreamResult)
    (now : String) : RouteResult :=
  let instrumentIp := extractInstrumentIp instrumentId
  if !ipRegexTest instrumentIp then
    { requestMade := false,
      response := { status := 400, body :=
          [("success", .boolean false),
                 ("error", .str "Invalid instrument ID or IP address format"),
                 ("instrumentId", .str (String.mk instrumentId)),
                 ("timestamp", .str now)] } }
  else
    { requestMade := true,
      response :=
        match axiosSub500 upstream with
        | .ok (status, data) =>
          let isSuccess := decide (200 ≤ status) && decide (status < 300)
          { status := 200, body :=
          [("success", .boolean isSuccess),
                     ("instrumentIp", .str (String.mk instrumentIp)),
                     ("statusCode", .num (Int.ofNat status)),
                     ("message", .str (if isSuccess then
                         "Operation stopped successfully on " ++ String.mk instrumentIp
                       else "Request completed with warnings")),
                     ("responsePreview", .str (substrPrefix data 500)),
                     ("timestamp", .str now)] }
        | .error msg =>
          { status := 500, body :=
          [("success", .boolean false),
                     ("error", .str "Failed to stop operation"),
                     ("message", .str msg),
                     ("timestamp", .str now)] } }

/-- `GET /api/vi-cell/system-info/:instrumentId` (server.js:602-661).  Note
the success envelope carries `systemInfo` (the upstream JSON, passed through
whole) and has no `message` and no `responsePreview` field. -/
def viCellSystemInfoRoute (instrumentId : List Char) (upstream : UpstreamResult)
    (now : String) : RouteResult :=
  let instrumentIp := extractInstrumentIp instrumentId
  if !ipRegexTest instrumentIp then
    { requestMade := false,
      response := { status := 400, body :=
          [("success", .boolean false),
           ("error", .str "Invalid instrument ID or IP address format"),
           ("instrumentId", .str (String.mk instrumentId)),
           ("timestamp", .str now)] } }
  else
    { requestMade := true,
      response :=
        match axiosSub500 upstream with
        | .ok (status, data) =>
          let isSuccess := decide (200 ≤ status) && decide (status < 300)
          { status := 200, body :=
              [("success", .boolean isSuccess),
               ("instrumentIp", .str (String.mk instrumentIp)),
               ("systemInfo", .raw data),
               ("statusCode", .num (Int.ofNat status)),
               ("timestamp", .str now)] }
        | .error msg =>
          { status := 500, body :=
              [("success", .boolean false),
               ("error", .str "Failed to get system info"),
               ("message", .str msg),
               ("timestamp", .str now)] } }

/-- `GET /api/vi-cell/status/:instrumentId` (server.js:664-723). -/
def viCellStatusRoute (instrumentId : List Char) (upstream : UpstreamResult)
    (now : String) : RouteResult :=
  let instrumentIp := extractInstrumentIp instrumentId
  if !ipRegexTest instrumentIp then
    { requestMade := false,
      response := { status := 400, body :=
          [("success", .boolean false),
           ("error", .str "Invalid instrument ID or IP address format"),
           ("instrumentId", .str (String.mk instrumentId)),
           ("timestamp", .str now)] } }
  else
    { requestMade := true,
      response :=
        match axiosSub500 upstream with
        | .ok (status, data) =>
          let isSuccess := decide (200 ≤ status) && decide (status < 300)
          { status := 200, body :=
              [("success", .boolean isSuccess),
               ("instrumentIp", .str (String.mk instrumentIp)),
               ("status", .raw data),
               ("statusCode", .num (Int.ofNat status)),
               ("timestamp", .str now)] }
        | .error msg =>
          { status := 500, body :=
              [("success", .boolean false),
               ("error", .str "Failed to get instrument status"),
               ("message", .str msg),
               ("timestamp", .str now)] } }

/-- `GET /api/vi-cell/results/recent/:instrumentId` (server.js:726-786).
The `limit` query parameter (default 10) only feeds the outbound URL, which
is elided here. -/
def viCellRecentResultsRoute (instrumentId : List Char)
    (upstream : UpstreamResult) (now : String) : RouteResult :=
  let instrumentIp := extractInstrumentIp instrumentId
  if !ipRegexTest instrumentIp then
    { requestMade := false,
      response := { status := 400, body :=
          [("success", .boolean false),
           ("error", .str "Invalid instrument ID or IP address format"),
           ("instrumentId", .str (String.mk instrumentId)),
           ("timestamp", .str now)] } }
  else
    { requestMade := true,
      response :=
        match axiosSub500 upstream with
        | .ok (status, data) =>
          let isSuccess := decide (200 ≤ status) && decide (status < 300)
          { status := 200, body :=
              [("success", .boolean isSuccess),
               ("instrumentIp", .str (String.mk instrumentIp)),
               ("results", .raw data),
               ("statusCode", .num (Int.ofNat status)),
               ("timestamp", .str now)] }
        | .error msg =>
          { status := 500, body :=
              [("success", .boolean false),
               ("error", .str "Failed to get results"),
               ("message", .str msg),
               ("timestamp", .str now)] } }

/-- `GET /api/vi-cell/sample/:instrumentId/:sampleId/status`
(server.js:789-849). -/
def viCellSampleStatusRoute (instrumentId : List Char) (sampleId : String)
    (upstream : UpstreamResult) (now : String) : RouteResult :=
  let instrumentIp := extractInstrumentIp instrumentId
  if !ipRegexTest instrumentIp then
    { requestMade := false,
      response := { status := 400, body :=
          [("success", .boolean false),
           ("error", .str "Invalid instrument ID or IP address format"),
           ("instrumentId", .str (String.mk instrumentId)),
           ("timestamp", .str now)] } }
  else
    { requestMade := true,
      response :=
        match axiosSub500 upstream with
        | .ok (status, data) =>
          let isSuccess := decide (200 ≤ status) && decide (status < 300)
          { status := 200, body :=
              [("success", .boolean isSuccess),
               ("instrumentIp", .str (String.mk instrumentIp)),
               ("sampleId", .str sampleId),
               ("sampleStatus", .raw data),
               ("statusCode", .num (Int.ofNat status)),
               ("timestamp", .str now)] }
        | .error msg =>
          { status := 500, body :=
              [("success", .boolean false),
               ("error", .str "Failed to get sample status"),
               ("message", .str msg),
               ("timestamp", .str now)] } }

/-- `GET /api/vi-cell/sample/:instrumentId/:sampleId/results`
(server.js:852-912). -/
def viCellSampleResultsRoute (instrumentId : List Char) (sampleId : String)
    (upstream : UpstreamResult) (now : String) : RouteResult :=
  let instrumentIp := extractInstrumentIp instrumentId
  if !ipRegexTest instrumentIp then
    { requestMade := false,
      response := { status := 400, body :=
          [("success", .boolean false),
           ("error", .str "Invalid instrument ID or IP address format"),
           ("instrumentId", .str (String.mk instrumentId)),
           ("timestamp", .str now)] } }
  else
    { requestMade := true,
      response :=
        match axiosSub500 upstream with
        | .ok (status, data) =>
          let isSuccess := decide (200 ≤ status) && decide (status < 300)
          { status := 200, body :=
              [("success", .boolean isSuccess),
               ("instrumentIp", .str (String.mk instrumentIp)),
               ("sampleId", .str sampleId),
               ("sampleResults", .raw data),
               ("statusCode", .num (Int.ofNat status)),
               ("timestamp", .str now)] }
        | .error msg =>
          { status := 500, body :=
              [("success", .boolean false),
               ("error", .str "Failed to get sample results"),
               ("message", .str msg),
               ("timestamp", .str now)] } }

/-- `POST /api/vi-cell/sample/:instrumentId/analyze` (server.js:915-992).
`sampleId` is a body field, `none` when absent; the `cellType`, `dilution`
and `washType` defaults only feed the outbound request body, which is
elided. -/
def viCellAnalyzeRoute (instrumentId : List Char) (sampleId : Option String)
    (upstream : UpstreamResult) (now : String) : RouteResult :=
  let instrumentIp := extractInstrumentIp instrumentId
  if !ipRegexTest instrumentIp then
    { requestMade := false,
      response := { status := 400, body :=
          [("success", .boolean false),
           ("error", .str "Invalid instrument ID or IP address format"),
           ("instrumentId", .str (String.mk instrumentId)),
           ("timestamp", .str now)] } }
  else if !truthy sampleId then
    { requestMade := false,
      response := { status := 400, body :=
          [("success", .boolean false),
           ("error", .str "Sample ID is required"),
           ("timestamp", .str now)] } }
  else
    { requestMade := true,
      response :=
        match axiosSub500 upstream with
        | .ok (status, data) =>
          let isSuccess := decide (200 ≤ status) && decide (status < 300)
          { status := 200, body :=
              [("success", .boolean isSuccess),
               ("instrumentIp", .str (String.mk instrumentIp)),
               ("sampleId", .str (sampleId.getD "")),
               ("analysisStatus", .raw data),
               ("statusCode", .num (Int.ofNat status)),
               ("message", .str (if isSuccess then
                   "Analysis started for sample " ++ sampleId.getD ""
                 else "Request completed with warnings")),
               ("timestamp", .str now)] }
        | .error msg =>
          { status := 500, body :=
              [("success", .boolean false),
               ("error", .str "Failed to start analysis"),
               ("message", .str msg),
               ("timestamp", .str now)] } }

/-- `GET /api/vi-cell/queue/:instrumentId` (server.js:995-1054). -/
def viCellQueueRoute (instrumentId : List Char) (upstream : UpstreamResult)
    (now : String) : RouteResult :=
  let instrumentIp := extractInstrumentIp instrumentId
  if !ipRegexTest instrumentIp then
    { requestMade := false,
      response := { status := 400, body :=
          [("success", .boolean false),
           ("error", .str "Invalid instrument ID or IP address format"),
           ("instrumentId", .str (String.mk instrumentId)),
           ("timestamp", .str now)] } }
  else
    { requestMade := true,
      response :=
        match axiosSub500 upstream with
        | .ok (status, data) =>
          let isSuccess := decide (200 ≤ status) && decide (status < 300)
          { status := 200, body :=
              [("success", .boolean isSuccess),
               ("instrumentIp", .str (String.mk instrumentIp)),
               ("queue", .raw data),
               ("statusCode", .num (Int.ofNat status)),
               ("timestamp", .str now)] }
        | .error msg =>
          { status := 500, body :=
              [("success", .boolean false),
               ("error", .str "Failed to get queue"),
               ("message", .str msg),
               ("timestamp", .str now)] } }

/-- The `onError` envelope of the generic header-driven proxy
(server.js:219-226): a 500 with `error` and `message` only. -/
def genericProxyOnError (errMessage : String) : HttpResponse :=
  { status := 500, body :=
          [("error", .str "Proxy error"), ("message", .str errMessage)] }

/-- All twelve structured proxy routes applied to one request shape, in
source order (the five `/api/proxy` actions, then the seven `/api/vi-cell`
resources).  Used to state properties quantified over "every structured
proxy route". -/
def structuredRoutes (instrumentId value : List Char) (sampleId : String)
    (upstream : UpstreamResult) (now : String) : List RouteResult :=
  [ setspeedRoute instrumentId value upstream now,
    setruntimeRoute instrumentId value upstream now,
    settemperatureRoute instrumentId value upstream now,
    startoperationRoute instrumentId upstream now,
    stopoperationRoute instrumentId upstream now,
    viCellSystemInfoRoute instrumentId upstream now,
    viCellStatusRoute instrumentId upstream now,
    viCellRecentResultsRoute instrumentId upstream now,
    viCellSampleStatusRoute instrumentId sampleId upstream now,
    viCellSampleResultsRoute instrumentId sampleId upstream now,
    viCellAnalyzeRoute instrumentId (some sampleId) upstream now,
    viCellQueueRoute instrumentId upstream now ]

/-- Whether a response body carries a field of the given name. -/
def hasKey (r : HttpResponse) (k : String) : Bool :=
  r.keys.contains k

/-- A concrete well-formed alert used to instantiate buffer scenarios. -/
def sampleAlertA : Alert :=
  { id := some "a0", instrument_id := some "therm-0", severity := some "low",
    description := some "first", timestamp := some "2026-01-01T00:00:00Z" }

/-- A second concrete alert, distinct from `sampleAlertA`. -/
def sampleAlertB : Alert :=
  { id := some "b", instrument_id := some "therm-1", severity := some "high",
    description := some "later", timestamp := some "2026-01-01T00:00:01Z" }

/-- An alert submission with no `id`, used to exercise rejection. -/
def alertNoId : Alert :=
  { id := none, instrument_id := some "i", severity := some "low",
    description := none, timestamp := none }

/-- The spec scenario alert `a1` submitted without a timestamp. -/
def alertA1 : Alert :=
  { id := some "a1", instrument_id := some "therm-1",
    severity := some "critical", description := some "spike",
    timestamp := none }

/-! Helper lemmas about the alert buffer. -/

/-- Pushing onto a 500-truncated buffer equals truncating after prepending. -/
theorem pushAlert_take (a : Alert) (l : List Alert) :
    pushAlert a (l.take 500) = (a :: l).take 500 := by
  unfold pushAlert MAX_ALERTS
  by_cases h : 500 ≤ l.length
  · have hlen : (l.take 500).length = 500 := by
      rw [List.length_take]; omega
    rw [if_pos (by simp [hlen])]
    rw [List.dropLast_eq_take]
    have h501 : (a :: l.take 500).length - 1 = 500 := by simp [hlen]
    rw [h501]
    have e1 : (a :: l.take 500).take 500 = a :: (l.take 500).take 499 := by
      have h499 : (500 : Nat) = 499 + 1 := by norm_num
      rw [h499, List.take_succ_cons]
    have e2 : (a :: l).take 500 = a :: l.take 499 := by
      have h499 : (500 : Nat) = 499 + 1 := by norm_num
      rw [h499, List.take_succ_cons]
    rw [e1, e2, List.take_take]
    norm_num
  · have hle : l.length ≤ 500 := by omega
    rw [List.take_of_length_le hle]
    rw [if_neg (by simp; omega)]
    rw [List.take_of_length_le (by simp; omega)]

/-- Folding a sequence of ingestions over a truncated buffer. -/
theorem ingestAll_take (as : List Alert) (l : List Alert) :
    ingestAll as (l.take 500) = (as.reverse ++ l).take 500 := by
  induction as generalizing l with
  | nil => simp [ingestAll]
  | cons a rest ih =>
    show ingestAll rest (pushAlert a (l.take 500)) = _
    rw [pushAlert_take]
    rw [ih (a :: l)]
    simp

/-- Ingesting a sequence into the empty buffer keeps the newest 500, in
newest-first order. -/
theorem ingestAll_nil_eq (as : List Alert) :
    ingestAll as [] = as.reverse.take 500 := by
  have h := ingestAll_take as []
  simpa using h

/-- The alert just pushed is always first in read order. -/
theorem pushAlert_head (a : Alert) (buf : List Alert) :
    (pushAlert a buf).head? = some a := by
  unfold pushAlert MAX_ALERTS
  by_cases h : buf.length + 1 > 500
  · rw [if_pos (by simpa using h)]
    match buf, h with
    | b :: t, _ => rfl
  · rw [if_neg (by simpa using h)]
    rfl

/-! Helper lemmas about IP extraction. -/

/-- Splitting on the first dash recovers the dash-free prefix. -/
theorem splitDashHead_append (l ds : List Char) (h : '-' ∉ l) :
    splitDashHead (l ++ '-' :: ds) = l := by
  induction l with
  | nil => simp [splitDashHead]
  | cons c cs ih =>
    have hc : ¬(c = '-') := fun e => h (by simp [e])
    have hcs : '-' ∉ cs := fun m => h (List.mem_cons_of_mem c m)
    simp only [List.cons_append, splitDashHead, if_neg hc]
    rw [show cs.append ('-' :: ds) = cs ++ '-' :: ds from rfl, ih hcs]

/-- A valid dotted-quad contains only digits and dots, hence no dash. -/
theorem ipv4Valid_no_dash (l : List Char) (h : ipv4Valid l = true) :
    '-' ∉ l := by
  intro m
  have hall : l.all (fun c => c.isDigit || c = '.') = true := by
    unfold ipv4Valid at h
    exact (Bool.and_eq_true _ _ |>.mp h).1
  have hm := List.all_eq_true.mp hall _ m
  exact absurd hm (by decide)

/-- Extraction is the identity on a dash-free id. -/
theorem extractInstrumentIp_no_dash (l : List Char) (h : '-' ∉ l) :
    extractInstrumentIp l = l := by
  have hc : containsDash l = false := by
    unfold containsDash
    rw [List.any_eq_false]
    intro c hcl
    simp only [decide_eq_true_eq]
    intro e
    exact h (e ▸ hcl)
  unfold extractInstrumentIp
  simp [hc]

/-- Extraction strips a dash-digit suffix from a dash-free prefix. -/
theorem extractInstrumentIp_strips_suffix (l ds : List Char) (h : '-' ∉ l) :
    extractInstrumentIp (l ++ '-' :: ds) = l := by
  have hc : containsDash (l ++ '-' :: ds) = true := by
    unfold containsDash
    simp
  unfold extractInstrumentIp
  simp only [hc, if_true]
  exact splitDashHead_append l ds h

/-- C9: For every valid IPv4 dotted-quad string `ip`, the instrumentId-to-IP
extraction (take the substring before the first dash) maps both the bare
string `ip` and the composite `ip-<digits>` to `ip` unchanged. -/
theorem ip_extraction_preserves_valid_ipv4 (ip ds : List Char)
    (h1 : ipv4Valid ip = true) (h2 : ds ≠ [])
    (h3 : ds.all (·.isDigit) = true) :
    extractInstrumentIp ip = ip ∧ extractInstrumentIp (ip ++ '-' :: ds) = ip := by
  have hnd : '-' ∉ ip := ipv4Valid_no_dash ip h1
  exact ⟨extractInstrumentIp_no_dash ip hnd,
         extractInstrumentIp_strips_suffix ip ds hnd⟩

/-- Witness for C9 at the discovery-style id `10.122.72.12-1762246641337`. -/
theorem ip_extraction_preserves_valid_ipv4_witness :
    extractInstrumentIp "10.122.72.12".toList = "10.122.72.12".toList ∧
    extractInstrumentIp ("10.122.72.12".toList ++ '-' :: "1762246641337".toList) =
      "10.122.72.12".toList :=
  ip_extraction_preserves_valid_ipv4 "10.122.72.12".toList
    "1762246641337".toList (by decide) (by decide) (by decide)

/-- C6: After any sequence of ingestions the alert buffer holds at most 500
alerts; each ingestion prepends the new alert, eviction removes exactly the
last element once the buffer would exceed 500, and after inserting 501
alerts (the first distinct from the rest) the first-inserted alert is
absent and the 501st is first in read order. -/
theorem alert_buffer_capped_with_fifo_eviction
    (a1 : Alert) (rest : List Alert) (h2 : rest.length = 500)
    (h3 : a1 ∉ rest) :
    (∀ bs : List Alert, (ingestAll bs []).length ≤ 500) ∧
    (∀ (a : Alert) (buf : List Alert), (pushAlert a buf).head? = some a) ∧
    (∀ (a : Alert) (buf : List Alert), buf.length = 500 →
        pushAlert a buf = (a :: buf).dropLast) ∧
    ingestAll (a1 :: rest) [] = rest.reverse ∧
    a1 ∉ ingestAll (a1 :: rest) [] ∧
    (ingestAll (a1 :: rest) []).head? = rest.getLast? := by
  have hshape : ingestAll (a1 :: rest) [] = rest.reverse := by
    rw [ingestAll_nil_eq]
    have hrev : (a1 :: rest).reverse = rest.reverse ++ [a1] := by simp
    rw [hrev]
    rw [List.take_append_of_le_length (by simp [h2])]
    exact List.take_of_length_le (by simp [h2])
  refine ⟨?_, pushAlert_head, ?_, hshape, ?_, ?_⟩
  · intro bs
    rw [ingestAll_nil_eq, List.length_take]
    omega
  · intro a buf hb
    unfold pushAlert MAX_ALERTS
    rw [if_pos (by simp [hb])]
  · rw [hshape]
    simpa using h3
  · rw [hshape]
    exact List.head?_reverse rest

/-- Witness for C6: one alert followed by 500 copies of a different one. -/
theorem alert_buffer_capped_with_fifo_eviction_witness :
    ingestAll (sampleAlertA :: List.replicate 500 sampleAlertB) [] =
      (List.replicate 500 sampleAlertB).reverse ∧
    sampleAlertA ∉ ingestAll (sampleAlertA :: List.replicate 500 sampleAlertB) [] ∧
    (ingestAll (sampleAlertA :: List.replicate 500 sampleAlertB) []).head? =
      (List.replicate 500 sampleAlertB).getLast? := by
  have h := alert_buffer_capped_with_fifo_eviction sampleAlertA
    (List.replicate 500 sampleAlertB) (by rw [List.length_replicate])
    (by
      rw [List.mem_replicate]
      rintro ⟨-, e⟩
      exact absurd e (by decide))
  exact ⟨h.2.2.2.1, h.2.2.2.2.1, h.2.2.2.2.2⟩

/-- C7: `POST /api/alerts` rejects with 400 any submission missing `id`,
`instrument_id` or `severity`, storing nothing; an accepted alert lacking a
timestamp is stored first in read order with the server ingestion time as
its timestamp, and every accepted alert is stored with a timestamp. -/
theorem alert_ingestion_validation_and_timestamp_default :
    (∀ (buf : List Alert) (a : Alert) (now : String),
        (truthy a.id = false ∨ truthy a.instrument_id = false ∨
          truthy a.severity = false) →
        (postAlert buf a now).1.status = 400 ∧ (postAlert buf a now).2 = buf) ∧
    (∀ (buf : List Alert) (a : Alert) (now : String),
        truthy a.id = true → truthy a.instrument_id = true →
        truthy a.severity = true → truthy a.timestamp = false →
        (postAlert buf a now).1.status = 200 ∧
        (postAlert buf a now).2.head? =
          some { a with timestamp := some now }) ∧
    (∀ (buf : List Alert) (a : Alert) (now : String),
        truthy a.id = true → truthy a.instrument_id = true →
        truthy a.severity = true →
        ∃ stored, (postAlert buf a now).2.head? = some stored ∧
          stored.timestamp.isSome = true) := by
  refine ⟨?_, ?_, ?_⟩
  · intro buf a now h
    unfold postAlert
    rcases h with h | h | h <;> rw [if_pos (by simp [h])] <;> exact ⟨rfl, rfl⟩
  · intro buf a now h1 h2 h3 h4
    unfold postAlert
    rw [if_neg (by simp [h1, h2, h3])]
    refine ⟨rfl, ?_⟩
    simp only [h4, Bool.false_eq_true, if_false]
    exact pushAlert_head _ _
  · intro buf a now h1 h2 h3
    unfold postAlert
    rw [if_neg (by simp [h1, h2, h3])]
    by_cases ht : truthy a.timestamp
    · refine ⟨a, ?_, ?_⟩
      · simp only [ht, if_true]
        exact pushAlert_head _ _
      · cases e : a.timestamp with
        | none => rw [e] at ht; simp [truthy] at ht
        | some s => simp
    · refine ⟨{ a with timestamp := some now }, ?_, by simp⟩
      simp only [ht, Bool.false_eq_true, if_false]
      exact pushAlert_head _ _

/-- Witness for C7: a rejected id-less alert and the spec scenario alert
`a1` ingested without a timestamp. -/
theorem alert_ingestion_validation_and_timestamp_default_witness :
    ((postAlert [] alertNoId "T").1.status = 400 ∧
      (postAlert [] alertNoId "T").2 = []) ∧
    ((postAlert [] alertA1 "2026-01-01T00:00:00Z").1.status = 200 ∧
      (postAlert [] alertA1 "2026-01-01T00:00:00Z").2.head? =
        some { alertA1 with timestamp := some "2026-01-01T00:00:00Z" }) :=
  ⟨alert_ingestion_validation_and_timestamp_default.1 [] alertNoId "T"
      (Or.inl (by decide)),
   alert_ingestion_validation_and_timestamp_default.2.1 [] alertA1 _
      (by decide) (by decide) (by decide) (by decide)⟩

/-- C5: A command submission that fails validation returns 400 carrying the
validation error string (of the form `Unknown command: <name>`, `Missing
required parameter: <name>`, or `Parameter <name> out of range
(<min>-<max>)`), stores no command record, and a fresh command id remains
unretrievable (`GET` by it returns 404). -/
theorem command_validation_failure_rejects_and_stores_nothing :
    (∀ (store : CommandStore) (i c : String) (ps : List (String × JValue))
        (cid now now2 err : String),
        validateCommandParameters c ps = .invalid err →
        (postCommand store i c ps cid now).1.status = 400 ∧
        (postCommand store i c ps cid now).1.body.lookup "error" =
          some (.str err) ∧
        (postCommand store i c ps cid now).2 = store ∧
        (store.lookup cid = none →
          (getCommand (postCommand store i c ps cid now).2 cid now2).status =
            404)) ∧
    (∀ (name : String) (ps : List (String × JValue)),
        validationRules.lookup name = none →
        validateCommandParameters name ps =
          .invalid ("Unknown command: " ++ name)) ∧
    validateCommandParameters "set_temperature" [] =
      .invalid "Missing required parameter: value" ∧
    validateCommandParameters "set_temperature" [("value", .num 500)] =
      .invalid "Parameter value out of range (-80-300)" := by
  refine ⟨?_, ?_, by decide, by decide⟩
  · intro store i c ps cid now now2 err h
    simp only [postCommand, h]
    refine ⟨trivial, by simp [List.lookup], trivial, ?_⟩
    intro hf
    simp [getCommand, hf]
  · intro name ps h
    simp [validateCommandParameters, h]

/-- Witness for C5 at the unknown command name `recalibrate` on an empty
store. -/
theorem command_validation_failure_rejects_and_stores_nothing_witness :
    (postCommand [] "10.0.0.1" "recalibrate" [] "cmd_1" "T").1.status = 400 ∧
    (postCommand [] "10.0.0.1" "recalibrate" [] "cmd_1" "T").1.body.lookup
      "error" = some (.str "Unknown command: recalibrate") ∧
    (postCommand [] "10.0.0.1" "recalibrate" [] "cmd_1" "T").2 = [] ∧
    (getCommand (postCommand [] "10.0.0.1" "recalibrate" [] "cmd_1" "T").2
      "cmd_1" "T").status = 404 := by
  have h := command_validation_failure_rejects_and_stores_nothing.1
    [] "10.0.0.1" "recalibrate" [] "cmd_1" "T" "T"
    "Unknown command: recalibrate" (by decide)
  exact ⟨h.1, h.2.1, h.2.2.1, h.2.2.2 (by decide)⟩

/-- C10: A `set_temperature` or `set_pressure` command whose `value` is a
non-numeric string passes validation (the range check compares against
`NaN`, which is never out of range), so the submission is accepted with
200, a `pending` record is stored under the returned id, and the record is
then executed to a terminal `completed` or `failed` state rather than being
rejected. -/
theorem non_numeric_value_passes_validation
    (s : String) (h : decInt? s.toList = none) (store : CommandStore)
    (i cid now : String) (b : Bool) (t : Nat) :
    validateCommandParameters "set_temperature" [("value", .str s)] = .valid ∧
    validateCommandParameters "set_pressure" [("value", .str s)] = .valid ∧
    (postCommand store i "set_temperature" [("value", .str s)] cid
      now).1.status = 200 ∧
    (postCommand store i "set_temperature" [("value", .str s)] cid
      now).1.body.lookup "success" = some (.boolean true) ∧
    (postCommand store i "set_temperature" [("value", .str s)] cid
      now).2.lookup cid = some
        { id := cid, instrumentId := i, command := "set_temperature",
          parameters := [("value", .str s)], timestamp := now,
          status := "pending", result := none, error := none } ∧
    ((executeCommand
        { id := cid, instrumentId := i, command := "set_temperature",
          parameters := [("value", .str s)], timestamp := now,
          status := "pending", result := none, error := none } b t).status =
      "completed" ∨
     (executeCommand
        { id := cid, instrumentId := i, command := "set_temperature",
          parameters := [("value", .str s)], timestamp := now,
          status := "pending", result := none, error := none } b t).status =
      "failed") := by
  have h' : decInt? s.data = none := h
  have hv : validateCommandParameters "set_temperature" [("value", .str s)] =
      .valid := by
    simp [validateCommandParameters, validationRules, List.lookup,
      List.find?, jsLt, jsGt, jsToNumber, h']
  have hp : validateCommandParameters "set_pressure" [("value", .str s)] =
      .valid := by
    simp [validateCommandParameters, validationRules, List.lookup,
      List.find?, jsLt, jsGt, jsToNumber, h']
  refine ⟨hv, hp, ?_, ?_, ?_, ?_⟩
  · simp only [postCommand, hv]
  · simp only [postCommand, hv]
    simp [List.lookup]
  · simp only [postCommand, hv]
    simp [List.lookup]
  · cases b <;> simp [executeCommand]

/-- Witness for C10 at the value `"abc"`. -/
theorem non_numeric_value_passes_validation_witness :
    validateCommandParameters "set_temperature" [("value", .str "abc")] =
      .valid ∧
    (postCommand [] "10.0.0.1" "set_temperature" [("value", .str "abc")]
      "cmd_2" "T").1.status = 200 := by
  have h := non_numeric_value_passes_validation "abc" (by decide)
    [] "10.0.0.1" "cmd_2" "T" false 1500
  exact ⟨h.1, h.2.2.1⟩

/-- C1 counterexample: `set_speed` is in the spec's command enum but has no
entry in the validation table, so even a well-formed `set_speed` submission
is rejected as an unknown command with 400. -/
theorem set_speed_rejected_as_unknown :
    validateCommandParameters "set_speed" [("value", .num 1000)] =
      .invalid "Unknown command: set_speed" ∧
    (postCommand [] "10.0.0.1" "set_speed" [("value", .num 1000)] "cmd_3"
      "T").1.status = 400 := by
  decide

/-- C1 (amended): for every command name in {set_temperature, set_pressure,
start, stop}, `validateCommandParameters` recognizes the name — it never
returns an Unknown-command rejection when the required parameters are
present and in range — and the command endpoint accepts and queues the
command: 200, `success:true`, a `commandId`, and a stored `pending`
record. -/
theorem known_commands_accepted_and_queued :
    (∀ v : Int, -80 ≤ v → v ≤ 300 →
        validateCommandParameters "set_temperature" [("value", .num v)] =
          .valid) ∧
    (∀ v : Int, 0 ≤ v → v ≤ 1000 →
        validateCommandParameters "set_pressure" [("value", .num v)] =
          .valid) ∧
    (∀ ps : List (String × JValue),
        validateCommandParameters "start" ps = .valid) ∧
    (∀ ps : List (String × JValue),
        validateCommandParameters "stop" ps = .valid) ∧
    (∀ (store : CommandStore) (i c : String) (ps : List (String × JValue))
        (cid now : String),
        validateCommandParameters c ps = .valid →
        (postCommand store i c ps cid now).1.status = 200 ∧
        (postCommand store i c ps cid now).1.body.lookup "success" =
          some (.boolean true) ∧
        (postCommand store i c ps cid now).1.body.lookup "commandId" =
          some (.str cid) ∧
        (postCommand store i c ps cid now).2.lookup cid = some
          { id := cid, instrumentId := i, command := c, parameters := ps,
            timestamp := now, status := "pending", result := none,
            error := none }) := by
  refine ⟨?_, ?_, ?_, ?_, ?_⟩
  · intro v h1 h2
    simp [validateCommandParameters, validationRules, List.lookup,
      List.find?, jsLt, jsGt, jsToNumber]
    rw [decide_eq_false (by omega : ¬(v < -80)),
      decide_eq_false (by omega : ¬(300 < v))]
    rfl
  · intro v h1 h2
    simp [validateCommandParameters, validationRules, List.lookup,
      List.find?, jsLt, jsGt, jsToNumber]
    rw [decide_eq_false (by omega : ¬(v < 0)),
      decide_eq_false (by omega : ¬(1000 < v))]
    rfl
  · intro ps
    simp [validateCommandParameters, validationRules, List.lookup, List.find?]
  · intro ps
    simp [validateCommandParameters, validationRules, List.lookup, List.find?]
  · intro store i c ps cid now h
    simp only [postCommand, h]
    exact ⟨trivial, by simp [List.lookup], by simp [List.lookup],
      by simp [List.lookup]⟩

/-- Witness for C1 (amended): `set_temperature` at 25 °C and a bare `start`
command, submitted on an empty store. -/
theorem known_commands_accepted_and_queued_witness :
    validateCommandParameters "set_temperature" [("value", .num 25)] =
      .valid ∧
    (postCommand [] "10.0.0.1" "start" [] "cmd_4" "T").1.status = 200 ∧
    (postCommand [] "10.0.0.1" "start" [] "cmd_4" "T").1.body.lookup
      "commandId" = some (.str "cmd_4") := by
  have h1 := known_commands_accepted_and_queued.1 25 (by decide) (by decide)
  have h2 := known_commands_accepted_and_queued.2.2.2.2
    [] "10.0.0.1" "start" [] "cmd_4" "T" (by decide)
  exact ⟨h1, h2.1, h2.2.2.1⟩

/-- C4 counterexample: `999.0.0.1` is not a valid IPv4 dotted-quad address
(its first octet exceeds 255), yet it matches the gateway regex, so the
setspeed route forwards the request upstream instead of replying 400. -/
theorem invalid_octet_ip_still_forwarded :
    ipv4Valid "999.0.0.1".toList = false ∧
    ipRegexTest (extractInstrumentIp "999.0.0.1".toList) = true ∧
    (setspeedRoute "999.0.0.1".toList "1000".toList (.reply 200 "OK")
      "T").requestMade = true ∧
    (setspeedRoute "999.0.0.1".toList "1000".toList (.reply 200 "OK")
      "T").response.status = 200 := by
  decide

/-- C4 (amended): for every instrumentId whose extracted IP fails the
gateway pattern of four dot-separated runs of one to three digits, every
structured proxy route responds 400 with `success:false` and issues no
outbound request. -/
theorem regex_rejected_ip_gets_400_before_outbound
    (instrumentId value : List Char) (sampleId : String)
    (upstream : UpstreamResult) (now : String)
    (h : ipRegexTest (extractInstrumentIp instrumentId) = false) :
    ∀ r ∈ structuredRoutes instrumentId value sampleId upstream now,
      r.requestMade = false ∧ r.response.status = 400 ∧
      r.response.body.lookup "success" = some (.boolean false) := by
  intro r hr
  simp only [structuredRoutes, List.mem_cons, List.not_mem_nil,
    or_false] at hr
  rcases hr with rfl | rfl | rfl | rfl | rfl | rfl | rfl | rfl | rfl |
    rfl | rfl | rfl <;>
    simp [setspeedRoute, setruntimeRoute, settemperatureRoute,
      startoperationRoute, stopoperationRoute, viCellSystemInfoRoute,
      viCellStatusRoute, viCellRecentResultsRoute, viCellSampleStatusRoute,
      viCellSampleResultsRoute, viCellAnalyzeRoute, viCellQueueRoute,
      h, List.lookup]

/-- Witness for C4 (amended) at the non-IP id `therm`, on the setspeed
route. -/
theorem regex_rejected_ip_gets_400_before_outbound_witness :
    (setspeedRoute "therm".toList "1000".toList (.reply 200 "OK")
      "T").requestMade = false ∧
    (setspeedRoute "therm".toList "1000".toList (.reply 200 "OK")
      "T").response.status = 400 ∧
    (setspeedRoute "therm".toList "1000".toList (.reply 200 "OK")
      "T").response.body.lookup "success" = some (.boolean false) :=
  regex_rejected_ip_gets_400_before_outbound "therm".toList "1000".toList
    "s1" (.reply 200 "OK") "T" (by decide)
    (setspeedRoute "therm".toList "1000".toList (.reply 200 "OK") "T")
    (by simp [structuredRoutes])

/-- C8: with a valid IP, the boundary values speed 500 and 100000, runtime
1 and 1000, temperature -80 and 300 pass validation and are forwarded,
while 499, 100001, 0, 1001, -81 and 301 are rejected with 400 and the
explicit allowed-range message before any outbound request. -/
theorem proxy_value_boundary_behavior :
    ((setspeedRoute "10.0.0.1".toList "500".toList (.reply 200 "OK")
        "T").requestMade = true ∧
      (setspeedRoute "10.0.0.1".toList "100000".toList (.reply 200 "OK")
        "T").requestMade = true) ∧
    ((setspeedRoute "10.0.0.1".toList "499".toList (.reply 200 "OK")
        "T").requestMade = false ∧
      (setspeedRoute "10.0.0.1".toList "499".toList (.reply 200 "OK")
        "T").response.status = 400 ∧
      (setspeedRoute "10.0.0.1".toList "499".toList (.reply 200 "OK")
        "T").response.body.lookup "error" =
          some (.str "Speed value must be between 500 and 100,000")) ∧
    ((setspeedRoute "10.0.0.1".toList "100001".toList (.reply 200 "OK")
        "T").requestMade = false ∧
      (setspeedRoute "10.0.0.1".toList "100001".toList (.reply 200 "OK")
        "T").response.status = 400) ∧
    ((setruntimeRoute "10.0.0.1".toList "1".toList (.reply 200 "OK")
        "T").requestMade = true ∧
      (setruntimeRoute "10.0.0.1".toList "1000".toList (.reply 200 "OK")
        "T").requestMade = true) ∧
    ((setruntimeRoute "10.0.0.1".toList "0".toList (.reply 200 "OK")
        "T").requestMade = false ∧
      (setruntimeRoute "10.0.0.1".toList "0".toList (.reply 200 "OK")
        "T").response.status = 400 ∧
      (setruntimeRoute "10.0.0.1".toList "0".toList (.reply 200 "OK")
        "T").response.body.lookup "error" =
          some (.str "Runtime value must be between 1 and 1000")) ∧
    ((setruntimeRoute "10.0.0.1".toList "1001".toList (.reply 200 "OK")
        "T").requestMade = false ∧
      (setruntimeRoute "10.0.0.1".toList "1001".toList (.reply 200 "OK")
        "T").response.status = 400) ∧
    ((settemperatureRoute "10.0.0.1".toList "-80".toList (.reply 200 "OK")
        "T").requestMade = true ∧
      (settemperatureRoute "10.0.0.1".toList "300".toList (.reply 200 "OK")
        "T").requestMade = true) ∧
    ((settemperatureRoute "10.0.0.1".toList "-81".toList (.reply 200 "OK")
        "T").requestMade = false ∧
      (settemperatureRoute "10.0.0.1".toList "-81".toList (.reply 200 "OK")
        "T").response.status = 400 ∧
      (settemperatureRoute "10.0.0.1".toList "-81".toList (.reply 200 "OK")
        "T").response.body.lookup "error" =
          some (.str "Temperature value must be between -80 and 300")) ∧
    ((settemperatureRoute "10.0.0.1".toList "301".toList (.reply 200 "OK")
        "T").requestMade = false ∧
      (settemperatureRoute "10.0.0.1".toList "301".toList (.reply 200 "OK")
        "T").response.status = 400) := by
  decide

/-- C2 counterexample: the vi-cell system-info route wraps an upstream 404
(status below 500) in an envelope that has neither a `message` nor a
`responsePreview` field, contrary to the uniform-envelope claim for every
structured proxy route. -/
theorem viCell_envelope_lacks_preview_fields :
    (viCellSystemInfoRoute "10.0.0.1".toList (.reply 404 "not found")
      "T").response.keys =
      ["success", "instrumentIp", "systemInfo", "statusCode", "timestamp"] ∧
    (viCellSystemInfoRoute "10.0.0.1".toList (.reply 404 "not found")
      "T").response.body.lookup "message" = none ∧
    (viCellSystemInfoRoute "10.0.0.1".toList (.reply 404 "not found")
      "T").response.body.lookup "responsePreview" = none := by
  decide

/-- C2 (amended): every upstream reply below 500 is wrapped in an envelope
with `success` true iff the upstream status is in [200,300); the five
`/api/proxy` routes carry `success, instrumentIp, <value field>,
statusCode, message, responsePreview` (first 500 characters of the body)
`, timestamp` (start/stop lack the value field); the `/api/vi-cell` routes
carry `success, instrumentIp, <data field>, statusCode, timestamp` (plus
`sampleId` and, for analyze, `message`) with no `responsePreview`. -/
theorem structured_envelope_shapes :
    (∀ (id value : List Char) (v : Int) (s : Nat) (d now : String),
      ipRegexTest (extractInstrumentIp id) = true →
      parseIntJS value = some v → 500 ≤ v → v ≤ 100000 → s < 500 →
      (setspeedRoute id value (.reply s d) now).response.status = 200 ∧
      (setspeedRoute id value (.reply s d) now).response.keys =
        ["success", "instrumentIp", "speed", "statusCode", "message",
         "responsePreview", "timestamp"] ∧
      (setspeedRoute id value (.reply s d) now).response.body.lookup
        "success" = some (.boolean (decide (200 ≤ s) && decide (s < 300))) ∧
      (setspeedRoute id value (.reply s d) now).response.body.lookup
        "responsePreview" = some (.str (substrPrefix d 500))) ∧
    (∀ (id value : List Char) (v : Int) (s : Nat) (d now : String),
      ipRegexTest (extractInstrumentIp id) = true →
      parseIntJS value = some v → 1 ≤ v → v ≤ 1000 → s < 500 →
      (setruntimeRoute id value (.reply s d) now).response.status = 200 ∧
      (setruntimeRoute id value (.reply s d) now).response.keys =
        ["success", "instrumentIp", "runtime", "statusCode", "message",
         "responsePreview", "timestamp"] ∧
      (setruntimeRoute id value (.reply s d) now).response.body.lookup
        "success" = some (.boolean (decide (200 ≤ s) && decide (s < 300))) ∧
      (setruntimeRoute id value (.reply s d) now).response.body.lookup
        "responsePreview" = some (.str (substrPrefix d 500))) ∧
    (∀ (id value : List Char) (v : Int) (s : Nat) (d now : String),
      ipRegexTest (extractInstrumentIp id) = true →
      parseIntJS value = some v → -80 ≤ v → v ≤ 300 → s < 500 →
      (settemperatureRoute id value (.reply s d) now).response.status = 200 ∧
      (settemperatureRoute id value (.reply s d) now).response.keys =
        ["success", "instrumentIp", "temperature", "statusCode", "message",
         "responsePreview", "timestamp"] ∧
      (settemperatureRoute id value (.reply s d) now).response.body.lookup
        "success" = some (.boolean (decide (200 ≤ s) && decide (s < 300))) ∧
      (settemperatureRoute id value (.reply s d) now).response.body.lookup
        "responsePreview" = some (.str (substrPrefix d 500))) ∧
    (∀ (id : List Char) (s : Nat) (d now : String),
      ipRegexTest (extractInstrumentIp id) = true → s < 500 →
      (startoperationRoute id (.reply s d) now).response.status = 200 ∧
      (startoperationRoute id (.reply s d) now).response.keys =
        ["success", "instrumentIp", "statusCode", "message",
         "responsePreview", "timestamp"] ∧
      (startoperationRoute id (.reply s d) now).response.body.lookup
        "success" = some (.boolean (decide (200 ≤ s) && decide (s < 300))) ∧
      (startoperationRoute id (.reply s d) now).response.body.lookup
        "responsePreview" = some (.str (substrPrefix d 500))) ∧
    (∀ (id : List Char) (s : Nat) (d now : String),
      ipRegexTest (extractInstrumentIp id) = true → s < 500 →
      (stopoperationRoute id (.reply s d) now).response.status = 200 ∧
      (stopoperationRoute id (.reply s d) now).response.keys =
        ["success", "instrumentIp", "statusCode", "message",
         "responsePreview", "timestamp"] ∧
      (stopoperationRoute id (.reply s d) now).response.body.lookup
        "success" = some (.boolean (decide (200 ≤ s) && decide (s < 300))) ∧
      (stopoperationRoute id (.reply s d) now).response.body.lookup
        "responsePreview" = some (.str (substrPrefix d 500))) ∧
    (∀ (id : List Char) (s : Nat) (d now : String),
      ipRegexTest (extractInstrumentIp id) = true → s < 500 →
      (viCellSystemInfoRoute id (.reply s d) now).response.status = 200 ∧
      (viCellSystemInfoRoute id (.reply s d) now).response.keys =
        ["success", "instrumentIp", "systemInfo", "statusCode",
         "timestamp"] ∧
      (viCellSystemInfoRoute id (.reply s d) now).response.body.lookup
        "success" = some (.boolean (decide (200 ≤ s) && decide (s < 300)))) ∧
    (∀ (id : List Char) (s : Nat) (d now : String),
      ipRegexTest (extractInstrumentIp id) = true → s < 500 →
      (viCellStatusRoute id (.reply s d) now).response.status = 200 ∧
      (viCellStatusRoute id (.reply s d) now).response.keys =
        ["success", "instrumentIp", "status", "statusCode", "timestamp"] ∧
      (viCellStatusRoute id (.reply s d) now).response.body.lookup
        "success" = some (.boolean (decide (200 ≤ s) && decide (s < 300)))) ∧
    (∀ (id : List Char) (s : Nat) (d now : String),
      ipRegexTest (extractInstrumentIp id) = true → s < 500 →
      (viCellRecentResultsRoute id (.reply s d) now).response.status = 200 ∧
      (viCellRecentResultsRoute id (.reply s d) now).response.keys =
        ["success", "instrumentIp", "results", "statusCode", "timestamp"] ∧
      (viCellRecentResultsRoute id (.reply s d) now).response.body.lookup
        "success" = some (.boolean (decide (200 ≤ s) && decide (s < 300)))) ∧
    (∀ (id : List Char) (sid : String) (s : Nat) (d now : String),
      ipRegexTest (extractInstrumentIp id) = true → s < 500 →
      (viCellSampleStatusRoute id sid (.reply s d) now).response.status =
        200 ∧
      (viCellSampleStatusRoute id sid (.reply s d) now).response.keys =
        ["success", "instrumentIp", "sampleId", "sampleStatus",
         "statusCode", "timestamp"] ∧
      (viCellSampleStatusRoute id sid (.reply s d) now).response.body.lookup
        "success" = some (.boolean (decide (200 ≤ s) && decide (s < 300)))) ∧
    (∀ (id : List Char) (sid : String) (s : Nat) (d now : String),
      ipRegexTest (extractInstrumentIp id) = true → s < 500 →
      (viCellSampleResultsRoute id sid (.reply s d) now).response.status =
        200 ∧
      (viCellSampleResultsRoute id sid (.reply s d) now).response.keys =
        ["success", "instrumentIp", "sampleId", "sampleResults",
         "statusCode", "timestamp"] ∧
      (viCellSampleResultsRoute id sid (.reply s d)
        now).response.body.lookup "success" =
        some (.boolean (decide (200 ≤ s) && decide (s < 300)))) ∧
    (∀ (id : List Char) (sid : String) (s : Nat) (d now : String),
      ipRegexTest (extractInstrumentIp id) = true → sid.isEmpty = false →
      s < 500 →
      (viCellAnalyzeRoute id (some sid) (.reply s d) now).response.status =
        200 ∧
      (viCellAnalyzeRoute id (some sid) (.reply s d) now).response.keys =
        ["success", "instrumentIp", "sampleId", "analysisStatus",
         "statusCode", "message", "timestamp"] ∧
      (viCellAnalyzeRoute id (some sid) (.reply s d)
        now).response.body.lookup "success" =
        some (.boolean (decide (200 ≤ s) && decide (s < 300)))) ∧
    (∀ (id : List Char) (s : Nat) (d now : String),
      ipRegexTest (extractInstrumentIp id) = true → s < 500 →
      (viCellQueueRoute id (.reply s d) now).response.status = 200 ∧
      (viCellQueueRoute id (.reply s d) now).response.keys =
        ["success", "instrumentIp", "queue", "statusCode", "timestamp"] ∧
      (viCellQueueRoute id (.reply s d) now).response.body.lookup
        "success" = some (.boolean (decide (200 ≤ s) && decide (s < 300)))) := by
  refine ⟨?_, ?_, ?_, ?_, ?_, ?_, ?_, ?_, ?_, ?_, ?_, ?_⟩
  · intro id value v s d now hip hv h3 h4 hs
    simp only [setspeedRoute, hip, Bool.not_true, Bool.false_eq_true,
      if_false, hv, axiosSub500, if_pos hs]
    rw [decide_eq_false (by omega : ¬(v < 500)),
      decide_eq_false (by omega : ¬(100000 < v))]
    simp [HttpResponse.keys, List.lookup]
  · intro id value v s d now hip hv h3 h4 hs
    simp only [setruntimeRoute, hip, Bool.not_true, Bool.false_eq_true,
      if_false, hv, axiosSub500, if_pos hs]
    rw [decide_eq_false (by omega : ¬(v < 1)),
      decide_eq_false (by omega : ¬(1000 < v))]
    simp [HttpResponse.keys, List.lookup]
  · intro id value v s d now hip hv h3 h4 hs
    simp only [settemperatureRoute, hip, Bool.not_true, Bool.false_eq_true,
      if_false, hv, axiosSub500, if_pos hs]
    rw [decide_eq_false (by omega : ¬(v < -80)),
      decide_eq_false (by omega : ¬(300 < v))]
    simp [HttpResponse.keys, List.lookup]
  · intro id s d now hip hs
    simp only [startoperationRoute, hip, Bool.not_true, Bool.false_eq_true,
      if_false, axiosSub500, if_pos hs]
    simp [HttpResponse.keys, List.lookup]
  · intro id s d now hip hs
    simp only [stopoperationRoute, hip, Bool.not_true, Bool.false_eq_true,
      if_false, axiosSub500, if_pos hs]
    simp [HttpResponse.keys, List.lookup]
  · intro id s d now hip hs
    simp only [viCellSystemInfoRoute, hip, Bool.not_true,
      Bool.false_eq_true, if_false, axiosSub500, if_pos hs]
    simp [HttpResponse.keys, List.lookup]
  · intro id s d now hip hs
    simp only [viCellStatusRoute, hip, Bool.not_true, Bool.false_eq_true,
      if_false, axiosSub500, if_pos hs]
    simp [HttpResponse.keys, List.lookup]
  · intro id s d now hip hs
    simp only [viCellRecentResultsRoute, hip, Bool.not_true,
      Bool.false_eq_true, if_false, axiosSub500, if_pos hs]
    simp [HttpResponse.keys, List.lookup]
  · intro id sid s d now hip hs
    simp only [viCellSampleStatusRoute, hip, Bool.not_true,
      Bool.false_eq_true, if_false, axiosSub500, if_pos hs]
    simp [HttpResponse.keys, List.lookup]
  · intro id sid s d now hip hs
    simp only [viCellSampleResultsRoute, hip, Bool.not_true,
      Bool.false_eq_true, if_false, axiosSub500, if_pos hs]
    simp [HttpResponse.keys, List.lookup]
  · intro id sid s d now hip hsid hs
    simp only [viCellAnalyzeRoute, hip, Bool.not_true, Bool.false_eq_true,
      if_false, truthy, hsid, Bool.not_false, if_true, axiosSub500,
      if_pos hs]
    simp [HttpResponse.keys, List.lookup]
  · intro id s d now hip hs
    simp only [viCellQueueRoute, hip, Bool.not_true, Bool.false_eq_true,
      if_false, axiosSub500, if_pos hs]
    simp [HttpResponse.keys, List.lookup]

/-- Witness for C2 (amended): setspeed wrapping an upstream 404 on a valid
IP and in-range value. -/
theorem structured_envelope_shapes_witness :
    (setspeedRoute "10.0.0.1".toList "1000".toList (.reply 404 "err")
      "T").response.status = 200 ∧
    (setspeedRoute "10.0.0.1".toList "1000".toList (.reply 404 "err")
      "T").response.keys =
      ["success", "instrumentIp", "speed", "statusCode", "message",
       "responsePreview", "timestamp"] ∧
    (setspeedRoute "10.0.0.1".toList "1000".toList (.reply 404 "err")
      "T").response.body.lookup "success" =
      some (.boolean (decide ((200 : Nat) ≤ 404) && decide ((404 : Nat) < 300))) ∧
    (setspeedRoute "10.0.0.1".toList "1000".toList (.reply 404 "err")
      "T").response.body.lookup "responsePreview" =
      some (.str (substrPrefix "err" 500)) :=
  structured_envelope_shapes.1 "10.0.0.1".toList "1000".toList 1000 404
    "err" "T" (by decide) (by decide) (by decide) (by decide) (by decide)

/-- C3 counterexample: the alert-ingestion 400 envelope and the generic
proxy 500 envelope carry no `timestamp` field. -/
theorem alert_and_proxy_error_envelopes_lack_timestamp :
    (postAlert [] alertNoId "T").1.status = 400 ∧
    (postAlert [] alertNoId "T").1.body.lookup "timestamp" = none ∧
    (genericProxyOnError "connect ECONNREFUSED 10.0.0.1:8080").status =
      500 ∧
    (genericProxyOnError "connect ECONNREFUSED 10.0.0.1:8080").body.lookup
      "timestamp" = none := by
  decide

/-- C3 (amended): every error envelope carries a human-readable `message`
or `error` field; the structured proxy routes and the command endpoints
also carry a `timestamp`, but the generic proxy 500 envelope and the alert
ingestion 400 envelope omit it. -/
theorem error_envelope_fields :
    (∀ msg : String,
      hasKey (genericProxyOnError msg) "error" = true ∧
      hasKey (genericProxyOnError msg) "message" = true ∧
      hasKey (genericProxyOnError msg) "timestamp" = false) ∧
    (∀ (buf : List Alert) (a : Alert) (now : String),
      (truthy a.id = false ∨ truthy a.instrument_id = false ∨
        truthy a.severity = false) →
      (postAlert buf a now).1.status = 400 ∧
      hasKey (postAlert buf a now).1 "error" = true ∧
      hasKey (postAlert buf a now).1 "timestamp" = false) ∧
    (∀ (store : CommandStore) (i c : String) (ps : List (String × JValue))
        (cid now err : String),
      validateCommandParameters c ps = .invalid err →
      hasKey (postCommand store i c ps cid now).1 "error" = true ∧
      hasKey (postCommand store i c ps cid now).1 "timestamp" = true) ∧
    (∀ (store : CommandStore) (cid now : String),
      store.lookup cid = none →
      (getCommand store cid now).status = 404 ∧
      hasKey (getCommand store cid now) "error" = true ∧
      hasKey (getCommand store cid now) "timestamp" = true) ∧
    (∀ (instrumentId value : List Char) (sampleId : String)
        (upstream : UpstreamResult) (now : String),
      ipRegexTest (extractInstrumentIp instrumentId) = false →
      ∀ r ∈ structuredRoutes instrumentId value sampleId upstream now,
        hasKey r.response "error" = true ∧
        hasKey r.response "timestamp" = true) ∧
    (∀ (id value : List Char) (v : Int) (now msg : String),
      ipRegexTest (extractInstrumentIp id) = true →
      parseIntJS value = some v → 500 ≤ v → v ≤ 100000 →
      (setspeedRoute id value (.netFailure msg) now).response.status =
        500 ∧
      hasKey (setspeedRoute id value (.netFailure msg) now).response
        "error" = true ∧
      hasKey (setspeedRoute id value (.netFailure msg) now).response
        "message" = true ∧
      hasKey (setspeedRoute id value (.netFailure msg) now).response
        "timestamp" = true) ∧
    (∀ (id value : List Char) (v : Int) (now msg : String),
      ipRegexTest (extractInstrumentIp id) = true →
      parseIntJS value = some v → 1 ≤ v → v ≤ 1000 →
      (setruntimeRoute id value (.netFailure msg) now).response.status =
        500 ∧
      hasKey (setruntimeRoute id value (.netFailure msg) now).response
        "error" = true ∧
      hasKey (setruntimeRoute id value (.netFailure msg) now).response
        "message" = true ∧
      hasKey (setruntimeRoute id value (.netFailure msg) now).response
        "timestamp" = true) ∧
    (∀ (id value : List Char) (v : Int) (now msg : String),
      ipRegexTest (extractInstrumentIp id) = true →
      parseIntJS value = some v → -80 ≤ v → v ≤ 300 →
      (settemperatureRoute id value (.netFailure msg)
        now).response.status = 500 ∧
      hasKey (settemperatureRoute id value (.netFailure msg) now).response
        "error" = true ∧
      hasKey (settemperatureRoute id value (.netFailure msg) now).response
        "message" = true ∧
      hasKey (settemperatureRoute id value (.netFailure msg) now).response
        "timestamp" = true) ∧
    (∀ (id : List Char) (now msg : String),
      ipRegexTest (extractInstrumentIp id) = true →
      (startoperationRoute id (.netFailure msg) now).response.status =
        500 ∧
      hasKey (startoperationRoute id (.netFailure msg) now).response
        "error" = true ∧
      hasKey (startoperationRoute id (.netFailure msg) now).response
        "timestamp" = true) ∧
    (∀ (id : List Char) (now msg : String),
      ipRegexTest (extractInstrumentIp id) = true →
      (stopoperationRoute id (.netFailure msg) now).response.status =
        500 ∧
      hasKey (stopoperationRoute id (.netFailure msg) now).response
        "error" = true ∧
      hasKey (stopoperationRoute id (.netFailure msg) now).response
        "timestamp" = true) ∧
    (∀ (id : List Char) (now msg : String),
      ipRegexTest (extractInstrumentIp id) = true →
      (viCellSystemInfoRoute id (.netFailure msg) now).response.status =
        500 ∧
      hasKey (viCellSystemInfoRoute id (.netFailure msg) now).response
        "error" = true ∧
      hasKey (viCellSystemInfoRoute id (.netFailure msg) now).response
        "timestamp" = true) ∧
    (∀ (id : List Char) (now msg : String),
      ipRegexTest (extractInstrumentIp id) = true →
      (viCellStatusRoute id (.netFailure msg) now).response.status = 500 ∧
      hasKey (viCellStatusRoute id (.netFailure msg) now).response
        "error" = true ∧
      hasKey (viCellStatusRoute id (.netFailure msg) now).response
        "timestamp" = true) ∧
    (∀ (id : List Char) (now msg : String),
      ipRegexTest (extractInstrumentIp id) = true →
      (viCellRecentResultsRoute id (.netFailure msg)
        now).response.status = 500 ∧
      hasKey (viCellRecentResultsRoute id (.netFailure msg) now).response
        "error" = true ∧
      hasKey (viCellRecentResultsRoute id (.netFailure msg) now).response
        "timestamp" = true) ∧
    (∀ (id : List Char) (sid : String) (now msg : String),
      ipRegexTest (extractInstrumentIp id) = true →
      (viCellSampleStatusRoute id sid (.netFailure msg)
        now).response.status = 500 ∧
      hasKey (viCellSampleStatusRoute id sid (.netFailure msg)
        now).response "error" = true ∧
      hasKey (viCellSampleStatusRoute id sid (.netFailure msg)
        now).response "timestamp" = true) ∧
    (∀ (id : List Char) (sid : String) (now msg : String),
      ipRegexTest (extractInstrumentIp id) = true →
      (viCellSampleResultsRoute id sid (.netFailure msg)
        now).response.status = 500 ∧
      hasKey (viCellSampleResultsRoute id sid (.netFailure msg)
        now).response "error" = true ∧
      hasKey (viCellSampleResultsRoute id sid (.netFailure msg)
        now).response "timestamp" = true) ∧
    (∀ (id : List Char) (sid : String) (now msg : String),
      ipRegexTest (extractInstrumentIp id) = true → sid.isEmpty = false →
      (viCellAnalyzeRoute id (some sid) (.netFailure msg)
        now).response.status = 500 ∧
      hasKey (viCellAnalyzeRoute id (some sid) (.netFailure msg)
        now).response "error" = true ∧
      hasKey (viCellAnalyzeRoute id (some sid) (.netFailure msg)
        now).response "timestamp" = true) ∧
    (∀ (id : List Char) (now msg : String),
      ipRegexTest (extractInstrumentIp id) = true →
      (viCellQueueRoute id (.netFailure msg) now).response.status = 500 ∧
      hasKey (viCellQueueRoute id (.netFailure msg) now).response
        "error" = true ∧
      hasKey (viCellQueueRoute id (.netFailure msg) now).response
        "timestamp" = true) := by
  refine ⟨?_, ?_, ?_, ?_, ?_, ?_, ?_, ?_, ?_, ?_, ?_, ?_, ?_, ?_, ?_,
    ?_, ?_⟩
  · intro msg
    simp [genericProxyOnError, hasKey, HttpResponse.keys]
  · intro buf a now h
    unfold postAlert
    rcases h with h | h | h <;> rw [if_pos (by simp [h])] <;>
      exact ⟨rfl, by simp [hasKey, HttpResponse.keys], by
        simp [hasKey, HttpResponse.keys]⟩
  · intro store i c ps cid now err h
    simp only [postCommand, h]
    exact ⟨by simp [hasKey, HttpResponse.keys], by
      simp [hasKey, HttpResponse.keys]⟩
  · intro store cid now h
    simp only [getCommand, h]
    exact ⟨trivial, by simp [hasKey, HttpResponse.keys], by
      simp [hasKey, HttpResponse.keys]⟩
  · intro instrumentId value sampleId upstream now h r hr
    simp only [structuredRoutes, List.mem_cons, List.not_mem_nil,
      or_false] at hr
    rcases hr with rfl | rfl | rfl | rfl | rfl | rfl | rfl | rfl | rfl |
      rfl | rfl | rfl <;>
      simp [setspeedRoute, setruntimeRoute, settemperatureRoute,
        startoperationRoute, stopoperationRoute, viCellSystemInfoRoute,
        viCellStatusRoute, viCellRecentResultsRoute,
        viCellSampleStatusRoute, viCellSampleResultsRoute,
        viCellAnalyzeRoute, viCellQueueRoute, h, hasKey,
        HttpResponse.keys]
  · intro id value v now msg hip hv h3 h4
    simp only [setspeedRoute, hip, Bool.not_true, Bool.false_eq_true,
      if_false, hv, axiosSub500]
    rw [decide_eq_false (by omega : ¬(v < 500)),
      decide_eq_false (by omega : ¬(100000 < v))]
    simp [hasKey, HttpResponse.keys]
  · intro id value v now msg hip hv h3 h4
    simp only [setruntimeRoute, hip, Bool.not_true, Bool.false_eq_true,
      if_false, hv, axiosSub500]
    rw [decide_eq_false (by omega : ¬(v < 1)),
      decide_eq_false (by omega : ¬(1000 < v))]
    simp [hasKey, HttpResponse.keys]
  · intro id value v now msg hip hv h3 h4
    simp only [settemperatureRoute, hip, Bool.not_true, Bool.false_eq_true,
      if_false, hv, axiosSub500]
    rw [decide_eq_false (by omega : ¬(v < -80)),
      decide_eq_false (by omega : ¬(300 < v))]
    simp [hasKey, HttpResponse.keys]
  · intro id now msg hip
    simp [startoperationRoute, hip, axiosSub500, hasKey,
      HttpResponse.keys]
  · intro id now msg hip
    simp [stopoperationRoute, hip, axiosSub500, hasKey, HttpResponse.keys]
  · intro id now msg hip
    simp [viCellSystemInfoRoute, hip, axiosSub500, hasKey,
      HttpResponse.keys]
  · intro id now msg hip
    simp [viCellStatusRoute, hip, axiosSub500, hasKey, HttpResponse.keys]
  · intro id now msg hip
    simp [viCellRecentResultsRoute, hip, axiosSub500, hasKey,
      HttpResponse.keys]
  · intro id sid now msg hip
    simp [viCellSampleStatusRoute, hip, axiosSub500, hasKey,
      HttpResponse.keys]
  · intro id sid now msg hip
    simp [viCellSampleResultsRoute, hip, axiosSub500, hasKey,
      HttpResponse.keys]
  · intro id sid now msg hip hsid
    simp [viCellAnalyzeRoute, hip, truthy, hsid, axiosSub500, hasKey,
      HttpResponse.keys]
  · intro id now msg hip
    simp [viCellQueueRoute, hip, axiosSub500, hasKey, HttpResponse.keys]

/-- Witness for C3 (amended): the command-validation 400 envelope for an
unknown command carries `error` and `timestamp`. -/
theorem error_envelope_fields_witness :
    hasKey (postCommand [] "10.0.0.1" "recalibrate" [] "cmd_5" "T").1
      "error" = true ∧
    hasKey (postCommand [] "10.0.0.1" "recalibrate" [] "cmd_5" "T").1
      "timestamp" = true :=
  error_envelope_fields.2.2.1 [] "10.0.0.1" "recalibrate" [] "cmd_5" "T"
    "Unknown command: recalibrate" (by decide)

end Gateway
